import Mathlib

/-!
Verification of the animal-tag MTAG deserializer
(`src/animal_tag/serializer/utils.py` and
`src/animal_tag/serializer/deserializer.py`).

The Python source is shallowly embedded: on-wire integers and the
microsecond times (which numpy holds as int64 / float64, exact for all
values that occur, all below 2^53) are modelled as rationals, deques as
lists (front = left end), and code paths that raise Python exceptions
return `Except.error` / `Option.none`.
-/

namespace TagDeserializer

/-- MAX_TIME constant of `utils.py`: `2**32 - 1`. -/
def MAX_TIME : ℚ := 2 ^ 32 - 1

/-- MICROSECONDS_IN_A_SECOND constant of `utils.py`: `1e6`. -/
def MICROSECONDS_IN_A_SECOND : ℚ := 1000000

/-- SIZE_DICT of `utils.py`: byte size of each MTAG tag, `none` for a
character outside the alphabet (Python raises `KeyError`). -/
def SIZE_DICT (c : Char) : Option ℕ :=
  if c = 'B' then some 1 else if c = 'b' then some 1
  else if c = 'H' then some 2 else if c = 'h' then some 2
  else if c = 'U' then some 3 else if c = 'u' then some 3
  else if c = 'I' then some 4 else if c = 'i' then some 4
  else if c = 'f' then some 4
  else if c = 'L' then some 4 else if c = 'l' then some 4
  else if c = 'X' then some 1 else if c = 'x' then some 1
  else if c = 'T' then some 4
  else none

/-- get_packet_size of `utils.py`: sum of the per-tag sizes, `none` if any
character is outside the alphabet. -/
def get_packet_size (format : List Char) : Option ℕ :=
  format.foldl
    (fun acc c =>
      match acc, SIZE_DICT c with
      | some s, some v => some (s + v)
      | _, _ => none)
    (some 0)

/-- count_data_channels of `utils.py`: `data_channels = len(format)`,
`time_channels = 0`; if the format contains a "T", decrement the former and
increment the latter (once, regardless of how many "T"s there are). -/
def count_data_channels (format : List Char) : ℕ × ℕ :=
  let data_channels := format.length
  let time_channels := 0
  if format.contains 'T' then (data_channels - 1, time_channels + 1)
  else (data_channels, time_channels)

/-- Indices `i` with `items[i+1] - items[i] >= bad_frac * max_number`
(`large_pos_diffs` in `unwrapper`, computed by `np.where(np.diff(items) >= ...)`). -/
def large_pos_diffs (items : List ℚ) (max_number bad_frac : ℚ) : List ℕ :=
  (List.range (items.length - 1)).filter
    (fun i => bad_frac * max_number ≤ items.getD (i + 1) 0 - items.getD i 0)

/-- Indices `i` with `items[i+1] - items[i] <= -bad_frac * max_number`
(`large_neg_diffs` in `unwrapper`). -/
def large_neg_diffs (items : List ℚ) (max_number bad_frac : ℚ) : List ℕ :=
  (List.range (items.length - 1)).filter
    (fun i => items.getD (i + 1) 0 - items.getD i 0 ≤ -bad_frac * max_number)

/-- Slice update `items[a:b] -= m` of `unwrapper` step 2. -/
def sub_slice (items : List ℚ) (a b : ℕ) (m : ℚ) : List ℚ :=
  items.mapIdx (fun i x => if a ≤ i ∧ i < b then x - m else x)

/-- Suffix update `items[a:] += m` of `unwrapper` step 4. -/
def add_from (items : List ℚ) (a : ℕ) (m : ℚ) : List ℚ :=
  items.mapIdx (fun i x => if a ≤ i then x + m else x)

/-- The search `np.where(np.diff(items[start:]) <= -bad_frac*max_number)[0][0]`
inside the `large_pos_diffs` loop of `unwrapper`: the first offset `e` with
`items[start+e+1] - items[start+e] <= -bad_frac*max_number`, `none` when no
such offset exists (Python raises `IndexError` on the final `[0]`). -/
def find_end_offset (items : List ℚ) (start : ℕ) (max_number bad_frac : ℚ) : Option ℕ :=
  ((List.range (items.length - start - 1)).filter
    (fun e => items.getD (start + e + 1) 0 - items.getD (start + e) 0 ≤ -bad_frac * max_number)).head?

/-- The `for index in large_pos_diffs` loop of `unwrapper`: for each recorded
index (computed up front on the original array), find the first later negative
jump in the current array and subtract `max_number` from
`items[(index+1):(index+1+end_offset+1)]`; `none` when the search fails. -/
def pos_adjust_loop (max_number bad_frac : ℚ) : List ℕ → List ℚ → Option (List ℚ)
  | [], items => some items
  | index :: rest, items =>
    match find_end_offset items (index + 1) max_number bad_frac with
    | none => none
    | some end_offset =>
      pos_adjust_loop max_number bad_frac rest
        (sub_slice items (index + 1) (index + 1 + end_offset + 1) max_number)

/-- The `for index in large_neg_diffs` loop of `unwrapper`:
`items[(index+1):] += max_number` for each recorded index, in order. -/
def neg_add_loop (max_number : ℚ) : List ℕ → List ℚ → List ℚ
  | [], items => items
  | index :: rest, items => neg_add_loop max_number rest (add_from items (index + 1) max_number)

/-- unwrapper of `utils.py`. Steps: record the large positive diffs of the
input; for each, subtract `max_number` from the run up to and including the
first later large negative diff (raising, i.e. `none`, when there is none);
recompute the large negative diffs; add `max_number` to every element after
each of them; return the adjusted sequence and the count of large negative
diffs. -/
def unwrapper (values : List ℚ) (max_number bad_frac : ℚ) : Option (List ℚ × ℕ) :=
  match pos_adjust_loop max_number bad_frac (large_pos_diffs values max_number bad_frac) values with
  | none => none
  | some items =>
    let negs := large_neg_diffs items max_number bad_frac
    some (neg_add_loop max_number negs items, negs.length)

/-- Per-device accumulator DataBuffer of `utils.py` (deques modelled as
lists, front first). `num_buffers` and `pop_boundry` are Python ints,
`last_time` and `time_offset` become floats, hence `ℚ` here. -/
structure DataBuffer where
  header_data : List (List ℚ)
  header_time : List ℚ
  time : List ℚ
  data : List (List ℚ)
  time_offset : ℚ
  num_buffers : ℤ
  last_time : ℚ
  pop_boundry : ℤ
  chunk_size : ℕ

/-- extend_data of `DataBuffer`: `for i, channel in enumerate(data):
self.data[i].extend(channel)`. Channels of `self.data` beyond the argument
are untouched; the caller guards the out-of-range case. -/
def extend_data (channels : List (List ℚ)) (data : List (List ℚ)) : List (List ℚ) :=
  channels.mapIdx (fun i ch => if h : i < data.length then ch ++ data.get ⟨i, h⟩ else ch)

/-- append_raw_data of `DataBuffer`. Each of the four arguments is appended
to its queue when truthy (a non-empty tuple/list; for the scalar header time,
a non-zero value); the field updates are independent, so they are written as
one record update. `num_buffers` is incremented, the source's own
`AssertionError` fires when `num_buffers != len(header_time)`, and the
returned flag is `num_buffers >= pop_boundry`. A `data` argument with more
channels than the buffer holds raises `IndexError` inside `extend_data`. -/
def append_raw_data (b : DataBuffer) (header_data : List ℚ) (header_time : Option ℚ)
    (data : List (List ℚ)) (time : List ℚ) : Except String (DataBuffer × Bool) :=
  if data.length > b.data.length then .error "IndexError" else
  let b2 : DataBuffer :=
    { b with
      header_data := if header_data ≠ [] then b.header_data ++ [header_data] else b.header_data
      header_time :=
        match header_time with
        | some t => if t ≠ 0 then b.header_time ++ [t] else b.header_time
        | none => b.header_time
      time := if time ≠ [] then b.time ++ time else b.time
      data := if data ≠ [] then extend_data b.data data else b.data
      num_buffers := b.num_buffers + 1 }
  if b2.num_buffers ≠ (b2.header_time.length : ℤ) then
    .error "Num buffers should be equal to length of header_time"
  else
    .ok (b2, decide (b2.num_buffers ≥ b2.pop_boundry))

/-- Tail of `np.linspace(a, b, p+1)`: the `p` points
`a + (j+1) * (b - a) / p` for `j = 0 .. p-1`; the last one is exactly `b`. -/
def linspace_tail (a b : ℚ) (p : ℕ) : List ℚ :=
  (List.range p).map (fun j => a + ((j : ℚ) + 1) * (b - a) / (p : ℚ))

/-- The Mode 1 interpolation loop of `pop_data`:
`time[i*p : (i+1)*p] = np.linspace(popped_times[i], popped_times[i+1], p+1)[1:]`
for `i = 0 .. n-1`. Note the source interpolates over `popped_times`, the raw
anchors, not over the unwrapper output `pre_time`. -/
def mode1_times (popped_times : List ℚ) (n p : ℕ) : List ℚ :=
  (List.range n).flatMap
    (fun i => linspace_tail (popped_times.getD i 0) (popped_times.getD (i + 1) 0) p)

/-- DataWrite of `utils.py`: the chunk handed to the sink. `time` is in
seconds (microseconds divided by `1e6`). -/
structure DataWrite where
  time : List ℚ
  data : List (List ℚ)
  chunk_size : ℕ

/-- pop_data of `DataBuffer`. Mode 1 (`header_time` non-empty, `time` empty):
prepend `last_time` to the `num_buffer_to_pop` popped header times, run the
unwrapper (its adjusted sequence `pre_time` is left unused), interpolate
between the raw popped anchors, and set `last_time := time[-1]`. Mode 2
(`time` non-empty): pop `n*p` entries, add `time_offset`, unwrap, use the
result, and also pop `num_buffer_to_pop` header times when present. If
neither queue holds time, raise. Afterwards the source's
`if self.header_data:` arm pops `header_time` again (its self-acknowledged
bug), `time_offset` accumulates the overflows, each data channel is popped
into a column of a zero-initialized `len_data × num_channels` matrix,
`num_buffers` is decremented, and the time vector is divided by `1e6`.
Python exceptions (popping an exhausted deque, indexing `time[-1]` of an
empty vector, a column index out of range, an unwrapper failure) are
`Except.error`. -/
def pop_data (b : DataBuffer) (num_buffer_to_pop num_packets_per_buffer num_channels : ℕ) :
    Except String (DataBuffer × DataWrite) :=
  let len_data := num_buffer_to_pop * num_packets_per_buffer
  match
    (if b.header_time ≠ [] ∧ b.time = [] then
      if num_buffer_to_pop ≤ b.header_time.length then
        let popped_times := b.last_time :: b.header_time.take num_buffer_to_pop
        match unwrapper popped_times MAX_TIME (1/2) with
        | none => .error "IndexError"
        | some (_pre_time, num_overflows) =>
          let t := mode1_times popped_times num_buffer_to_pop num_packets_per_buffer
          match t.getLast? with
          | none => .error "IndexError"
          | some last =>
            .ok ({ b with header_time := b.header_time.drop num_buffer_to_pop,
                          last_time := last },
                 t, num_overflows)
      else .error "IndexError"
    else if b.time ≠ [] then
      if len_data ≤ b.time.length then
        let pre_time := (b.time.take len_data).map (fun x => b.time_offset + x)
        match unwrapper pre_time MAX_TIME (1/2) with
        | none => .error "IndexError"
        | some (t, num_overflows) =>
          let b1 := { b with time := b.time.drop len_data }
          if b1.header_time ≠ [] then
            if num_buffer_to_pop ≤ b1.header_time.length then
              .ok ({ b1 with header_time := b1.header_time.drop num_buffer_to_pop },
                   t, num_overflows)
            else .error "IndexError"
          else .ok (b1, t, num_overflows)
      else .error "IndexError"
    else
      .error "We have no way to get time, passed in neither header nor with data" :
    Except String (DataBuffer × List ℚ × ℕ))
  with
  | .error e => .error e
  | .ok (b2, t, num_overflows) =>
    match
      (if b2.header_data ≠ [] then
        if num_buffer_to_pop ≤ b2.header_time.length then
          .ok { b2 with header_time := b2.header_time.drop num_buffer_to_pop }
        else .error "IndexError"
      else .ok b2 : Except String DataBuffer)
    with
    | .error e => .error e
    | .ok b3 =>
      let b4 := { b3 with time_offset := b3.time_offset + (num_overflows : ℚ) * MAX_TIME }
      if b4.data.length > num_channels then .error "IndexError"
      else if ∀ ch ∈ b4.data, len_data ≤ ch.length then
        let cols := (List.range num_channels).map (fun i =>
          if h : i < b4.data.length then (b4.data.get ⟨i, h⟩).take len_data
          else List.replicate len_data 0)
        let b5 := { b4 with data := b4.data.map (fun ch => ch.drop len_data),
                            num_buffers := b4.num_buffers - (num_buffer_to_pop : ℤ) }
        .ok (b5, ⟨t.map (fun x => x / MICROSECONDS_IN_A_SECOND), cols, b5.chunk_size⟩)
      else .error "IndexError"

/-- The pass-1 loop of `FileParser.count_buffers`: while the offset is inside
the file, read the ID byte at the current offset, fail when it is absent from
the decoder, otherwise bump that decoder entry's `num_buffers` and the global
`tot_buffers` and seek forward `buffer_size - 1` bytes past the ID byte. The
decoder is modelled as a partial map from ID byte to its `buffer_size`. Fuel
bounds the iteration count (every well-formed step advances the offset). -/
def count_buffers_loop (file : List ℕ) (dec : ℕ → Option ℕ) :
    ℕ → ℕ → (ℕ → ℕ) → ℕ → Except String ((ℕ → ℕ) × ℕ)
  | 0, _, _, _ => .error "nontermination"
  | fuel + 1, pos, num_buffers, tot_buffers =>
    if h : pos < file.length then
      match dec (file.get ⟨pos, h⟩) with
      | none => .error "ID is not in decoder, failed to pre-parse file"
      | some buffer_size =>
        count_buffers_loop file dec fuel (pos + 1 + (buffer_size - 1))
          (Function.update num_buffers (file.get ⟨pos, h⟩) (num_buffers (file.get ⟨pos, h⟩) + 1))
          (tot_buffers + 1)
    else .ok (num_buffers, tot_buffers)

/-- FileParser.count_buffers of `deserializer.py`: save the current offset,
run the pass-1 loop from there with zeroed counters, and seek back to the
saved offset (the third returned component is the final reader position). -/
def count_buffers (file : List ℕ) (dec : ℕ → Option ℕ) (start : ℕ) :
    Except String ((ℕ → ℕ) × ℕ × ℕ) :=
  match count_buffers_loop file dec (file.length + 1) start (fun _ => 0) 0 with
  | .error e => .error e
  | .ok (num_buffers, tot_buffers) => .ok (num_buffers, tot_buffers, start)

/-- Byte image of a well-formed buffer region: each buffer is its ID byte
followed by its remaining `buffer_size - 1` bytes. -/
def region_bytes : List (ℕ × List ℕ) → List ℕ
  | [] => []
  | (id, payload) :: rest => id :: (payload ++ region_bytes rest)

/-- Mode 1 drain state for exercising a wrap: one buffer pending, its header
anchor is `1`, and the previous drain ended at microsecond `4294967294`
(`last_time`), just before the u32 wrap. No data channels, `num_packets = 1`. -/
def c1_buffer : DataBuffer :=
  { header_data := [], header_time := [1], time := [], data := [],
    time_offset := 0, num_buffers := 1, last_time := 4294967294,
    pop_boundry := 1280, chunk_size := 1 }

/-- DataBuffer with no queued content at all, as built by a fresh
`DataBuffer()` (one data channel, default `pop_boundry`). -/
def c5_empty_buffer : DataBuffer :=
  { header_data := [], header_time := [], time := [], data := [[]],
    time_offset := 0, num_buffers := 0, last_time := 0,
    pop_boundry := 1280, chunk_size := 1 }

/-- Fresh one-channel buffer with `pop_boundry = 1` for the C5 witness. -/
def c5_witness_buffer : DataBuffer :=
  { header_data := [], header_time := [], time := [], data := [[]],
    time_offset := 0, num_buffers := 0, last_time := 0,
    pop_boundry := 1, chunk_size := 1 }

/-- Mode 1 drain state with a pending `header_data` entry: two anchors queued,
one buffer to drain (`n = 1`, `num_packets = 1`), no data channels. -/
def c6_buffer : DataBuffer :=
  { header_data := [[7]], header_time := [4093, 8186], time := [], data := [],
    time_offset := 0, num_buffers := 2, last_time := 0,
    pop_boundry := 1280, chunk_size := 1 }

/-- Two-device decoder for the C7 witness: IDs 1 and 2, both with
`buffer_size = 2`. -/
def c7_dec : ℕ → Option ℕ := fun n => if n = 1 ∨ n = 2 then some 2 else none

/-- Little-endian 16-bit read, as `struct.unpack("<H", ...)` does. -/
def u16le (b0 b1 : ℕ) : ℕ := b0 + 256 * b1

/-- Little-endian 32-bit read, as `struct.unpack("<I", ...)` does. -/
def u32le (b0 b1 b2 b3 : ℕ) : ℕ := b0 + 256 * b1 + 65536 * b2 + 16777216 * b3

/-- Little-endian byte image of a 32-bit value. -/
def u32le_bytes (t : ℕ) : List ℕ := [t % 256, t / 256 % 256, t / 65536 % 256, t / 16777216 % 256]

/-- header_size of the S1 decoder entry: `get_packet_size("BTx")`. -/
def s1_header_size : ℕ := (get_packet_size ['B', 'T', 'x']).getD 0

/-- data_packet_size of the S1 decoder entry: `get_packet_size("H")`. -/
def s1_data_packet_size : ℕ := (get_packet_size ['H']).getD 0

/-- num_packets of the S1 decoder entry:
`(buffer_size - header_size) // data_packet_size` with `buffer_size = 10`. -/
def s1_num_packets : ℕ := (10 - s1_header_size) / s1_data_packet_size

/-- num_channels of the S1 decoder entry: `count_data_channels("H")[0]`. -/
def s1_num_channels : ℕ := (count_data_channels ['H']).1

/-- One S1 buffer on the wire (per the file layout the parser reads): ID byte
`1`, sub-header "Tx" as the u32 time plus a zero pad byte, then two "H"
packets of value 2, and no overflow bytes (10 = 6 + 2*2). -/
def s1_buffer (t : ℕ) : List ℕ := 1 :: (u32le_bytes t ++ [0] ++ [2, 0] ++ [2, 0])

/-- The three S1 buffers; the generator writes buffer `i` (1-based) with
header time `i * time`, `time = 4093`. -/
def s1_file_buffers : List (List ℕ) := [s1_buffer 4093, s1_buffer (2 * 4093), s1_buffer (3 * 4093)]

/-- FileParser.read_data_buffer instantiated at the S1 decoder: consume the
ID byte, unpack the 5 sub-header bytes as "Tx" (u32 time surfaced as
`header_time`, empty `header_data`), unpack the 4 payload bytes as two
little-endian "H" packets forming the single data channel, and no per-sample
time ("H" has no "T"). -/
def s1_read_buffer (bytes : List ℕ) : Option (ℚ × List (List ℚ)) :=
  match bytes with
  | id :: b1 :: b2 :: b3 :: b4 :: _pad :: d1 :: d2 :: d3 :: d4 :: [] =>
    if id = 1 then some ((u32le b1 b2 b3 b4 : ℚ), [[(u16le d1 d2 : ℚ), (u16le d3 d4 : ℚ)]])
    else none
  | _ => none

/-- Default `num_to_pop` of the FileParser. -/
def s1_num_to_pop : ℕ := 1024

/-- Parser-side per-device state during pass 2: the accumulator, the
parser's own `num_buffs` counter, and the chunks handed to the sink so far. -/
structure S1State where
  buffer : DataBuffer
  num_buffs : ℕ
  chunks : List DataWrite

/-- One iteration of the pass-2 loop of `FileParser.parse` for the S1 file:
read a buffer, increment `num_buffs`, `append_raw_data`; when the append
reports the boundary reached, drain `min(num_to_pop, num_buffs)` buffers via
`pop_data` and append the chunk for the sink. -/
def s1_step (st : Except String S1State) (bytes : List ℕ) : Except String S1State :=
  match st with
  | .error e => .error e
  | .ok s =>
    match s1_read_buffer bytes with
    | none => .error "ID is not in decoder, failed to parse file"
    | some (header_time, data) =>
      let s2 : S1State := { s with num_buffs := s.num_buffs + 1 }
      match append_raw_data s2.buffer [] (some header_time) data [] with
      | .error e => .error e
      | .ok (b, shouldPop) =>
        if shouldPop then
          let num_popped := min s1_num_to_pop s2.num_buffs
          match pop_data b num_popped s1_num_packets s1_num_channels with
          | .error e => .error e
          | .ok (b2, dw) =>
            .ok { buffer := b2, num_buffs := s2.num_buffs - num_popped,
                  chunks := s2.chunks ++ [dw] }
        else
          .ok { s2 with buffer := b }

/-- The S1 accumulator as `initialize_data` builds it: one data channel (the
single non-padding, non-time character of "H"), default `pop_boundry`, and
`chunk_size = num_packets`. -/
def s1_initial : DataBuffer :=
  { header_data := [], header_time := [], time := [], data := [[]],
    time_offset := 0, num_buffers := 0, last_time := 0, pop_boundry := 1280,
    chunk_size := s1_num_packets }

/-- FileParser.parse on the seed-S1 file: fold the pass-2 loop over the three
buffers, then the final flush (`pop_data` of all remaining buffers when
`num_buffs > 0`). The result collects the sink's content: the concatenated
chunk time vector (in seconds) and the flattened data entries. -/
def s1_parse : Except String (List ℚ × List ℚ) :=
  match s1_file_buffers.foldl s1_step (.ok ⟨s1_initial, 0, []⟩) with
  | .error e => .error e
  | .ok s =>
    if 0 < s.num_buffs then
      match pop_data s.buffer s.num_buffs s1_num_packets s1_num_channels with
      | .error e => .error e
      | .ok (_, dw) =>
        let chunks := s.chunks ++ [dw]
        .ok ((chunks.map DataWrite.time).flatten,
             (chunks.map (fun c => c.data.flatten)).flatten)
    else
      .ok ((s.chunks.map DataWrite.time).flatten,
           (s.chunks.map (fun c => c.data.flatten)).flatten)

/-- Running the pass-1 loop over a well-formed region appended to an
arbitrary prefix, starting at the end of the prefix: it succeeds, adds each
buffer's ID occurrence count to the counters, and adds the number of buffers
to `tot_buffers`. -/
theorem count_buffers_loop_region (dec : ℕ → Option ℕ) :
    ∀ (bufs : List (ℕ × List ℕ)),
      (∀ bp ∈ bufs, dec bp.1 = some (bp.2.length + 1)) →
      ∀ (pre : List ℕ) (counts : ℕ → ℕ) (tot fuel : ℕ),
        (region_bytes bufs).length + 1 ≤ fuel →
        count_buffers_loop (pre ++ region_bytes bufs) dec fuel pre.length counts tot =
          .ok (fun j => counts j + (bufs.map Prod.fst).count j, tot + bufs.length) := by
  intro bufs
  induction bufs with
  | nil =>
    intro _ pre counts tot fuel hfuel
    obtain ⟨f, rfl⟩ : ∃ f, fuel = f + 1 := ⟨fuel - 1, by omega⟩
    simp [count_buffers_loop, region_bytes]
  | cons bp rest ih =>
    intro hwf pre counts tot fuel hfuel
    obtain ⟨id, payload⟩ := bp
    obtain ⟨f, rfl⟩ : ∃ f, fuel = f + 1 := ⟨fuel - 1, by omega⟩
    have hlen : pre.length < (pre ++ region_bytes ((id, payload) :: rest)).length := by
      simp [region_bytes]
    have hget : (pre ++ region_bytes ((id, payload) :: rest)).get ⟨pre.length, hlen⟩ = id := by
      simp [region_bytes, List.get_eq_getElem, List.getElem_append_right]
    have hdec : dec id = some (payload.length + 1) := hwf (id, payload) (by simp)
    have hassoc : pre ++ region_bytes ((id, payload) :: rest) =
        (pre ++ id :: payload) ++ region_bytes rest := by
      simp [region_bytes]
    have hpos : pre.length + 1 + (payload.length + 1 - 1) = (pre ++ id :: payload).length := by
      simp
      omega
    rw [count_buffers_loop]
    rw [dif_pos hlen]
    rw [hget, hdec]
    dsimp only
    rw [hpos, hassoc]
    rw [ih (fun bp2 hbp => hwf bp2 (by simp [hbp])) (pre ++ id :: payload) _ _ f
      (by simp [region_bytes] at hfuel ⊢; omega)]
    congr 1
    simp only [Prod.mk.injEq]
    constructor
    · funext j
      by_cases hj : j = id
      · subst hj
        simp [Function.update_same, List.count_cons]
        omega
      · simp [Function.update_noteq hj, List.count_cons, hj]
    · simp
      omega

/-- Occurrence counts over the full byte range `0 .. 255` sum to the length
of a list of bytes. -/
theorem sum_range_count (l : List ℕ) (h : ∀ x ∈ l, x < 256) :
    ∑ j in Finset.range 256, l.count j = l.length := by
  induction l with
  | nil => simp
  | cons a t ih =>
    have ha : a < 256 := h a (by simp)
    have iht := ih (fun x hx => h x (by simp [hx]))
    simp only [List.count_cons, beq_iff_eq]
    rw [Finset.sum_add_distrib, iht]
    simp [Finset.sum_ite_eq', ha]

/-- Claim C7: after pass 1 over a well-formed buffer region (every ID byte in
the decoder, each entry's `buffer_size` matching its buffer), `count_buffers`
succeeds; each decoder entry's `num_buffers` equals the number of buffers
carrying its ID, the per-ID counts sum (over all 256 possible ID bytes) to
`tot_buffers`, which equals the number of ID bytes met in the linear scan
(one per buffer), and the reader position is restored to the saved
post-header offset. An ID byte absent from the decoder makes `count_buffers`
fail instead. -/
theorem C7_count_buffers_pass1 :
    (∀ (dec : ℕ → Option ℕ) (bufs : List (ℕ × List ℕ)) (pre : List ℕ),
      (∀ bp ∈ bufs, bp.1 < 256 ∧ dec bp.1 = some (bp.2.length + 1)) →
      ∃ counts,
        count_buffers (pre ++ region_bytes bufs) dec pre.length =
          .ok (counts, bufs.length, pre.length) ∧
        (∀ j, counts j = (bufs.map Prod.fst).count j) ∧
        ∑ j in Finset.range 256, counts j = bufs.length) ∧
    (∀ (file : List ℕ) (dec : ℕ → Option ℕ) (start : ℕ) (h : start < file.length),
      dec (file.get ⟨start, h⟩) = none →
      count_buffers file dec start = .error "ID is not in decoder, failed to pre-parse file") := by
  constructor
  · intro dec bufs pre hwf
    have hr := count_buffers_loop_region dec bufs (fun bp hbp => (hwf bp hbp).2) pre
      (fun _ => 0) 0 ((pre ++ region_bytes bufs).length + 1) (by simp)
    refine ⟨fun j => (bufs.map Prod.fst).count j, ?_, fun j => rfl, ?_⟩
    · rw [count_buffers, hr]
      dsimp only
      simp
    · have hlt : ∀ x ∈ bufs.map Prod.fst, x < 256 := by
        intro x hx
        obtain ⟨bp, hbp, rfl⟩ := List.mem_map.mp hx
        exact (hwf bp hbp).1
      simpa using sum_range_count _ hlt
  · intro file dec start h hdec
    rw [count_buffers, count_buffers_loop, dif_pos h, hdec]

/-- Witness for C7_count_buffers_pass1: a header byte `[9]` followed by three
2-byte buffers with IDs 1, 2, 1 under `c7_dec`, and the unknown-ID failure on
the one-byte file `[3]` with an empty decoder. -/
theorem C7_count_buffers_pass1_witness :
    (∃ counts,
        count_buffers ([9] ++ region_bytes [(1, [5]), (2, [6]), (1, [7])]) c7_dec
            (List.length [9]) =
          .ok (counts, 3, 1) ∧
        (∀ j, counts j = ([(1, [5]), (2, [6]), (1, [7])].map Prod.fst).count j) ∧
        ∑ j in Finset.range 256, counts j = 3) ∧
    count_buffers [3] (fun _ => none) 0 =
      .error "ID is not in decoder, failed to pre-parse file" :=
  ⟨C7_count_buffers_pass1.1 c7_dec [(1, [5]), (2, [6]), (1, [7])] [9] (by decide),
   C7_count_buffers_pass1.2 [3] (fun _ => none) 0 (by decide) rfl⟩

/-- Claim C2: on the seed input `[253, 0, 254, 255, 1]` with
`max_number = 256` and `bad_frac = 0.5`, the step-2 loop of the unwrapper
produces the intermediate sequence `[253, 0, -2, -1, 1]`, and the unwrapper
returns the final sequence `[253, 256, 254, 255, 257]` with overflow count 1. -/
theorem C2_unwrap_seed_sequence :
    pos_adjust_loop 256 (1/2)
        (large_pos_diffs [253, 0, 254, 255, 1] 256 (1/2)) [253, 0, 254, 255, 1] =
      some [253, 0, -2, -1, 1] ∧
    unwrapper [253, 0, 254, 255, 1] 256 (1/2) = some ([253, 256, 254, 255, 257], 1) := by
  constructor <;>
    · simp [unwrapper, large_pos_diffs, large_neg_diffs, pos_adjust_loop, neg_add_loop,
        find_end_offset, sub_slice, add_from, List.range_succ, List.filter]
      norm_num [pos_adjust_loop, find_end_offset, sub_slice, List.range_succ, List.filter,
        neg_add_loop, add_from]

/-- Claim C3, counterexample: the unwrapper is not total. On the u32 input
`[0, 2147483648]` with `max_number = 2^32 - 1` and `bad_frac = 0.5`, the
positive jump `2147483648 ≥ 0.5 * (2^32 - 1)` has no later negative jump, and
the step-2 search raises `IndexError` (modelled as `none`) instead of leaving
the run untouched. -/
theorem C3_unwrapper_raises_on_unmatched_pos_jump :
    unwrapper [0, 2147483648] MAX_TIME (1/2) = none := by
  simp [unwrapper, large_pos_diffs, pos_adjust_loop, find_end_offset,
    List.range_succ, List.filter, MAX_TIME]
  norm_num [pos_adjust_loop, find_end_offset, List.range_succ, List.filter]

/-- Claim C3, amended: the unwrapper never raises on inputs that contain no
positive jump of at least `bad_frac * max_number`; for every such input it
returns an adjusted sequence and an overflow count. (When some positive jump
has no later matching negative jump, it raises `IndexError` instead of leaving
the run untouched.) -/
theorem C3_unwrapper_total_without_pos_jumps (values : List ℚ) (max_number bad_frac : ℚ)
    (h : ∀ i ∈ List.range (values.length - 1),
      values.getD (i + 1) 0 - values.getD i 0 < bad_frac * max_number) :
    ∃ r, unwrapper values max_number bad_frac = some r := by
  have hpos : large_pos_diffs values max_number bad_frac = [] := by
    refine List.filter_eq_nil_iff.mpr ?_
    intro i hi
    simp only [decide_eq_true_eq, not_le]
    exact h i hi
  refine ⟨(neg_add_loop max_number (large_neg_diffs values max_number bad_frac) values,
    (large_neg_diffs values max_number bad_frac).length), ?_⟩
  simp only [unwrapper, hpos, pos_adjust_loop]

/-- Witness for C3_unwrapper_total_without_pos_jumps at the concrete input
`[10, 20]` with `max_number = 100`, `bad_frac = 0.5`. -/
theorem C3_unwrapper_total_without_pos_jumps_witness :
    ∃ r, unwrapper [10, 20] 100 (1/2) = some r :=
  C3_unwrapper_total_without_pos_jumps [10, 20] 100 (1/2)
    (by intro i hi; fin_cases hi; norm_num)

/-- Claim C4, counterexample: `[1, 2147483649]` is strictly monotonically
increasing, yet the unwrapper does not return it unchanged with zero
overflows — the jump `2^31 ≥ 0.5 * (2^32 - 1)` is treated as an out-of-order
write and the search for a matching negative jump raises (`none`). -/
theorem C4_unwrapper_raises_on_monotone_input :
    unwrapper [1, 2147483649] MAX_TIME (1/2) = none ∧ (1 : ℚ) < 2147483649 := by
  constructor
  · simp [unwrapper, large_pos_diffs, pos_adjust_loop, find_end_offset,
      List.range_succ, List.filter, MAX_TIME]
    norm_num [pos_adjust_loop, find_end_offset, List.range_succ, List.filter]
  · norm_num

/-- Claim C4, amended: for every strictly monotonically increasing input whose
adjacent differences are all below `bad_frac * max_number` (with
`bad_frac = 0.5`), the unwrapper returns the input unchanged and reports zero
overflows. -/
theorem C4_unwrapper_fixes_monotone (values : List ℚ) (max_number : ℚ)
    (h : ∀ i ∈ List.range (values.length - 1),
      0 < values.getD (i + 1) 0 - values.getD i 0 ∧
        values.getD (i + 1) 0 - values.getD i 0 < (1/2) * max_number) :
    unwrapper values max_number (1/2) = some (values, 0) := by
  have hpos : large_pos_diffs values max_number (1/2) = [] := by
    refine List.filter_eq_nil_iff.mpr ?_
    intro i hi
    simp only [decide_eq_true_eq, not_le]
    exact (h i hi).2
  have hneg : large_neg_diffs values max_number (1/2) = [] := by
    refine List.filter_eq_nil_iff.mpr ?_
    intro i hi
    simp only [decide_eq_true_eq, not_le]
    have h1 := (h i hi).1
    have h2 := (h i hi).2
    nlinarith
  simp only [unwrapper, hpos, pos_adjust_loop, hneg, neg_add_loop, List.length_nil]

/-- Witness for C4_unwrapper_fixes_monotone at the concrete input
`[1, 2, 3]` with `max_number = 256`. -/
theorem C4_unwrapper_fixes_monotone_witness :
    unwrapper [1, 2, 3] 256 (1/2) = some ([1, 2, 3], 0) :=
  C4_unwrapper_fixes_monotone [1, 2, 3] 256
    (by intro i hi; fin_cases hi <;> norm_num)

/-- Claim C1: in a Mode 1 drain the source interpolates over the RAW popped
anchors, not over the unwrapped ones — `pre_time`, the unwrapper output, is
discarded. On `c1_buffer` (anchors `[4294967294, 1]` across a wrap) the code
emits microsecond `1`, while the unwrapper maps the anchors to
`[4294967294, 4294967296]`, so interpolation over the unwrapped anchors, as
the claim states, would emit `4294967296`. -/
theorem C1_mode1_interpolates_raw_anchors :
    (pop_data c1_buffer 1 1 0).map (fun r => r.2.time.map (fun x => x * 1000000)) =
      .ok [1] ∧
    unwrapper [4294967294, 1] MAX_TIME (1/2) = some ([4294967294, 4294967296], 1) ∧
    linspace_tail 4294967294 4294967296 1 = [4294967296] := by
  refine ⟨?_, ?_, ?_⟩
  · simp [pop_data, c1_buffer, unwrapper, large_pos_diffs, large_neg_diffs, pos_adjust_loop,
      neg_add_loop, find_end_offset, sub_slice, add_from, mode1_times, linspace_tail,
      MAX_TIME, MICROSECONDS_IN_A_SECOND, List.range_succ, List.filter, Except.map]
    norm_num [pos_adjust_loop, find_end_offset, sub_slice, add_from, neg_add_loop,
      List.range_succ, List.filter, Except.map]
  · simp [unwrapper, large_pos_diffs, large_neg_diffs, pos_adjust_loop, neg_add_loop,
      find_end_offset, sub_slice, add_from, MAX_TIME, List.range_succ, List.filter]
    norm_num [pos_adjust_loop, find_end_offset, sub_slice, add_from, neg_add_loop,
      List.range_succ, List.filter]
  · simp [linspace_tail, List.range_succ]

/-- Claim C5, counterexample: `append_raw_data` cannot be called with an
empty `header_time` — on a fresh buffer a call with all four arguments empty
does not increment-and-return but raises the source's own `AssertionError`
("Num buffers should be equal to length of header_time"). -/
theorem C5_append_empty_header_time_raises :
    append_raw_data c5_empty_buffer [] none [] [] =
      .error "Num buffers should be equal to length of header_time" := by
  simp [append_raw_data, c5_empty_buffer]

/-- Claim C5, amended: `append_raw_data` may be called with empty
`header_data`, `data` or `time`, but each call must carry one (non-zero)
header timestamp; such a call, from a state satisfying the invariant
`num_buffers == len(header_time)` and with no more data channels than the
buffer holds, succeeds, increments `num_buffers` by one, returns `true` iff
`num_buffers ≥ pop_boundry` after the increment, and re-establishes the
invariant. A call whose `header_time` is empty raises `AssertionError`
instead. -/
theorem C5_append_increments_and_preserves_invariant (b : DataBuffer) (hd : List ℚ)
    (t : ℚ) (d : List (List ℚ)) (tm : List ℚ)
    (hinv : b.num_buffers = (b.header_time.length : ℤ))
    (ht : t ≠ 0) (hdl : d.length ≤ b.data.length) :
    ∃ b2 r, append_raw_data b hd (some t) d tm = .ok (b2, r) ∧
      b2.num_buffers = b.num_buffers + 1 ∧
      (r = true ↔ b.pop_boundry ≤ b.num_buffers + 1) ∧
      b2.num_buffers = (b2.header_time.length : ℤ) := by
  have hg : ¬ (b.data.length < d.length) := not_lt.mpr hdl
  have hht : (if t ≠ 0 then b.header_time ++ [t] else b.header_time) = b.header_time ++ [t] := by
    simp [ht]
  simp only [append_raw_data, gt_iff_lt, hg, if_false, hht]
  have hassert : ¬ (b.num_buffers + 1 ≠ ((b.header_time ++ [t]).length : ℤ)) := by
    simp [hinv]
  simp only [hassert, if_false]
  refine ⟨_, _, rfl, rfl, ?_, ?_⟩
  · simp [ge_iff_le]
  · simp [hinv]

/-- Witness for C5_append_increments_and_preserves_invariant on
`c5_witness_buffer`, appending header time `5` and one sample. -/
theorem C5_append_witness :
    ∃ b2 r,
      append_raw_data c5_witness_buffer [] (some 5) [[2]] [] = .ok (b2, r) ∧
      b2.num_buffers = c5_witness_buffer.num_buffers + 1 ∧
      (r = true ↔ c5_witness_buffer.pop_boundry ≤ c5_witness_buffer.num_buffers + 1) ∧
      b2.num_buffers = (b2.header_time.length : ℤ) :=
  C5_append_increments_and_preserves_invariant c5_witness_buffer [] 5 [[2]] []
    (by simp [c5_witness_buffer]) (by norm_num) (by simp [c5_witness_buffer])

/-- Claim C6: a Mode 1 drain of `n = 1` buffer from `c6_buffer`, whose
`header_data` queue is non-empty, removes TWO entries from `header_time`
(the anchor pop plus the `if self.header_data:` arm, which pops `header_time`
again instead of `header_data`) and leaves `header_data` untouched — the
claimed "exactly n popped from header_time, stale header_data dropped" is the
intent the source acknowledges but does not implement. -/
theorem C6_mode1_header_data_arm_pops_header_time :
    (pop_data c6_buffer 1 1 0).map (fun r => (r.1.header_time, r.1.header_data)) =
      .ok ([], [[7]]) ∧
    c6_buffer.header_time.length = 2 := by
  constructor
  · simp [pop_data, c6_buffer, unwrapper, large_pos_diffs, large_neg_diffs, pos_adjust_loop,
      neg_add_loop, find_end_offset, sub_slice, add_from, mode1_times, linspace_tail,
      MAX_TIME, MICROSECONDS_IN_A_SECOND, List.range_succ, List.filter, Except.map]
    norm_num [pos_adjust_loop, find_end_offset, sub_slice, add_from, neg_add_loop,
      List.range_succ, List.filter, Except.map]
  · simp [c6_buffer]

/-- Evaluation of the embedded parse of the seed-S1 file: the emitted time
vector, in seconds, interpolates the anchors `0, 4093, 8186, 12279` two
samples per buffer, and the single channel holds six samples of value 2. -/
theorem s1_parse_eval :
    s1_parse = .ok
      ([4093/2000000, 4093/1000000, 12279/2000000, 8186/1000000, 20465/2000000, 12279/1000000],
       [2, 2, 2, 2, 2, 2]) := by
  simp [s1_parse, s1_file_buffers, s1_step, s1_read_buffer, s1_buffer, s1_initial,
    u32le_bytes, u32le, u16le, s1_num_to_pop, s1_num_packets, s1_num_channels,
    s1_header_size, s1_data_packet_size, get_packet_size, SIZE_DICT, count_data_channels,
    append_raw_data, extend_data, pop_data, unwrapper, large_pos_diffs, large_neg_diffs,
    pos_adjust_loop, neg_add_loop, find_end_offset, sub_slice, add_from, mode1_times,
    linspace_tail, MAX_TIME, MICROSECONDS_IN_A_SECOND, List.range_succ, List.filter]
  norm_num [pop_data, unwrapper, large_pos_diffs, large_neg_diffs, pos_adjust_loop,
    neg_add_loop, find_end_offset, sub_slice, add_from, mode1_times, linspace_tail,
    List.range_succ, List.filter]

/-- Claim C8, counterexample: deserializing the seed-S1 file emits a time
vector of length 6, not 9 — the header "BTx" occupies 6 bytes (not 4), so
each 10-byte buffer holds (10-6)/2 = 2 packets and 3 buffers give 6 samples. -/
theorem C8_s1_time_length_not_nine :
    s1_parse.map (fun r => r.1.length) = .ok 6 ∧ (6 : ℕ) ≠ 9 := by
  rw [s1_parse_eval]
  constructor
  · rfl
  · decide

/-- Claim C8, amended: deserializing the seed-S1 file emits a time vector of
length `6 = 3 * ((10 - 6) / 2)` (the header "BTx" is 6 bytes, so
`num_packets = 2`), every data entry equals 2.0, and the last time value in
microseconds (before division by `10^6`) equals `3 * 4093 = 12279`. -/
theorem C8_s1_output :
    s1_parse = .ok
      ([4093/2000000, 4093/1000000, 12279/2000000, 8186/1000000, 20465/2000000, 12279/1000000],
       [2, 2, 2, 2, 2, 2]) ∧
    s1_header_size = 6 ∧ s1_num_packets = 2 ∧
    s1_parse.map (fun r => r.1.length) = .ok (3 * s1_num_packets) ∧
    s1_parse.map (fun r => r.1.getLast?.map (fun x => x * 1000000)) =
      .ok (some (3 * 4093)) := by
  refine ⟨s1_parse_eval, by decide, by decide, ?_, ?_⟩
  · rw [s1_parse_eval]
    rfl
  · rw [s1_parse_eval]
    simp [Except.map]
    norm_num

/-- Claim C9, counterexample: `count_data_channels` does not fail on a format
containing more than one "T" — on "TT" it returns `(1, 1)`, exactly as for a
single "T", with no error path at all. -/
theorem C9_multiple_T_no_error :
    count_data_channels ['T', 'T'] = (1, 1) := by
  decide

/-- Claim C9, amended: `count_data_channels` is total; it returns
`(len(fmt), 0)` when the format contains no "T" and `(len(fmt) - 1, 1)` when
it contains at least one "T" (a format with several "T"s is treated like one
with a single "T", not rejected). -/
theorem C9_channel_count (format : List Char) :
    ('T' ∉ format → count_data_channels format = (format.length, 0)) ∧
    ('T' ∈ format → count_data_channels format = (format.length - 1, 1)) := by
  constructor <;> intro h <;> simp [count_data_channels, h]

/-- Witness for C9_channel_count at the concrete formats "HB" (no "T") and
"TH" (one "T"). -/
theorem C9_channel_count_witness :
    count_data_channels ['H', 'B'] = (2, 0) ∧ count_data_channels ['T', 'H'] = (1, 1) :=
  ⟨(C9_channel_count ['H', 'B']).1 (by decide), (C9_channel_count ['T', 'H']).2 (by decide)⟩

end TagDeserializer
